import Mathlib

/-!
Verification of the `dlutil` HTTP retrieval helper.

Shallow embedding of `badstatus.go` (package `dlutil`): the option-assembly
mutators, the cache gate, the response classifier and the three public entry
points, together with proofs of the spec's testable properties.

Conventions of the embedding:
* The external HTTP transport (`opts.Client.Do`) is modelled by an input
  `net : Except String Resp`: `.error msg` is a transport-level failure, and
  `.ok resp` is the response the transport would deliver.
* `io.Reader` / `io.ReadCloser` bodies are modelled by their content string
  plus a flag saying whether reading them fails (`io.ReadAll` / streaming
  decode returns an error). Whether `Close()` was called on the network body
  inside `Download` is tracked explicitly in the result (`bodyClosed`).
* The cache collaborator (`razcache.Cache`) is modelled as an association
  list of key/value/TTL entries threaded through the call: `Get` succeeds
  exactly when the key is present; `Set` replaces or appends the entry.
* JSON decoding (`encoding/json`) is an external collaborator and is
  parameterised: a decoder is any function from the read content to an
  optional decoded value (`Option T`), or `Except String T` where the decode
  error message matters.
-/

namespace Dlutil

/-- Model of `context.Context` values: `background` is `context.Background()`,
`user n` any caller-supplied context. `Option Ctx` models Go nil-ability. -/
inductive Ctx where
  | background
  | user (n : Nat)
deriving DecidableEq

/-- Model of `*http.Client` values: `default` is `http.DefaultClient`,
`user n` any caller-supplied client. `Option Client` models Go nil-ability. -/
inductive Client where
  | defaultClient
  | user (n : Nat)
deriving DecidableEq

/-- Model of the `razcache.Cache` collaborator's state: key/value/TTL entries.
The TTL is opaque to the core (the backend owns expiry), so it is just stored. -/
abbrev CacheState := List (String × String × Nat)

/-- Model of `Cache.Get`: `some content` when the backend returns a nil error
(key present), `none` on lookup failure (absent/expired/backend error). -/
def cacheGet : CacheState → String → Option String
  | [], _ => none
  | (k, v, _) :: rest, key => if k = key then some v else cacheGet rest key

/-- Model of `Cache.Set`: replace the entry for the key, or append it. -/
def cacheSet : CacheState → String → String → Nat → CacheState
  | [], key, v, ttl => [(key, v, ttl)]
  | (k, v0, t0) :: rest, key, v, ttl =>
    if k = key then (key, v, ttl) :: rest else (k, v0, t0) :: cacheSet rest key v ttl

/-- Model of an `io.Reader` handed to an error-factory: its content and
whether reading it fails. -/
structure Reader where
  content : String
  fails : Bool
deriving DecidableEq

/-! ## net/textproto header canonicalisation (model of the stdlib collaborator)

`http.Header.Set/Add` canonicalise the key with
`textproto.CanonicalMIMEHeaderKey`: if every byte is a valid header-field
byte, the first letter and every letter after a hyphen are upper-cased and
all other letters lower-cased; otherwise the key is returned unchanged. -/

/-- Model of textproto's `validHeaderFieldByte` (RFC 7230 token bytes). -/
def validHeaderFieldByte (c : Char) : Bool :=
  let n := c.toNat
  n < 128 && (c.isAlphanum ||
    n = 33 || n = 35 || n = 36 || n = 37 || n = 38 || n = 39 || n = 42 ||
    n = 43 || n = 45 || n = 46 || n = 94 || n = 95 || n = 96 || n = 124 || n = 126)

/-- Case-canonicalise: upper-case at the start and after each hyphen. -/
def canonChars : Bool → List Char → List Char
  | _, [] => []
  | upper, c :: rest =>
    let c0 := if upper then c.toUpper else c.toLower
    c0 :: canonChars (c0 = Char.ofNat 45) rest

/-- Model of `textproto.CanonicalMIMEHeaderKey`. -/
def canonicalMIMEHeaderKey (s : String) : String :=
  if s.data.all validHeaderFieldByte then ⟨canonChars true s.data⟩ else s

/-- Model of `http.Header`: an association list from canonical keys to value
lists (Go's `map[string][]string`; map iteration order is unobservable here). -/
abbrev Header := List (String × List String)

/-- Replace the binding of a key in an association list (append if absent). -/
def setAssoc : Header → String → List String → Header
  | [], k, vs => [(k, vs)]
  | (k0, vs0) :: rest, k, vs =>
    if k0 = k then (k, vs) :: rest else (k0, vs0) :: setAssoc rest k vs

/-- Look up the value list bound to a key. -/
def getAssoc : Header → String → Option (List String)
  | [], _ => none
  | (k0, vs0) :: rest, k => if k0 = k then some vs0 else getAssoc rest k

/-- Model of `http.Header.Set`: bind the canonical key to the one-element list. -/
def headerSet (h : Header) (key value : String) : Header :=
  setAssoc h (canonicalMIMEHeaderKey key) [value]

/-- Model of `http.Header.Add`: append the value to the canonical key's list
(Go appends to the nil slice when the key is absent). -/
def headerAdd (h : Header) (key value : String) : Header :=
  let ck := canonicalMIMEHeaderKey key
  match getAssoc h ck with
  | some vs => setAssoc h ck (vs ++ [value])
  | none => setAssoc h ck [value]

/-! ## mime.ParseMediaType (model of the stdlib collaborator)

`matchContentType` calls `mime.ParseMediaType` and keeps only the media type:
everything before the first `;`, lower-cased and space-trimmed, validated as
`token "/" token` (empty string if invalid). Parameters are stripped and not
further validated by this model. -/

/-- tspecials of RFC 1521/2045, per Go `mime.isTSpecial`. -/
def isTSpecial (c : Char) : Bool :=
  c ∈ ['(', ')', '<', '>', '@', ',', ';', ':', '\\', '\"', '/', '[', ']', '?', '=']

/-- Model of Go `mime.isTokenChar`. -/
def isTokenChar (c : Char) : Bool :=
  0x20 < c.toNat && c.toNat < 0x7f && !(isTSpecial c)

/-- ASCII whitespace, for `strings.TrimSpace`. -/
def isMimeSpace (c : Char) : Bool :=
  c = ' ' || c = '\t' || c = '\n' || c = '\r'

/-- Trim whitespace from both ends of a character list. -/
def trimChars (l : List Char) : List Char :=
  ((l.dropWhile isMimeSpace).reverse.dropWhile isMimeSpace).reverse

/-- Model of Go mime's `checkMediaTypeDisposition`: `token` or `token/token`. -/
def checkMediaType (l : List Char) : Bool :=
  let typ := l.takeWhile isTokenChar
  let rest := l.dropWhile isTokenChar
  if typ.isEmpty then false
  else
    match rest with
    | [] => true
    | c :: rest1 =>
      c = Char.ofNat 47 &&
        (let sub := rest1.takeWhile isTokenChar
         let rest2 := rest1.dropWhile isTokenChar
         !sub.isEmpty && rest2.isEmpty)

/-- Model of the media-type component returned by `mime.ParseMediaType`:
the part before the first `;`, lower-cased, trimmed, validated (empty string
when the media type itself is malformed). -/
def parseMediaType (s : String) : String :=
  let base := s.data.takeWhile (fun c => c ≠ Char.ofNat 59)
  let mt := trimChars (base.map Char.toLower)
  if checkMediaType mt then ⟨mt⟩ else ""

/-! ## The data model: DownloadOptions and errors -/

/-- The errors a retrieval can produce. `T` is the caller's structured-error
type (`StructuredError` of the spec): `structured t` is a decoded error value
returned as the failure; `decodeFailure` is a JSON-decode (or body-read)
error surfaced by `DownloadJSON`; `readErr` is an `io.ReadAll` failure during
cache write-through. -/
inductive Err (T : Type) where
  | transport (msg : String)
  | badStatus (code : Nat)
  | structured (t : T)
  | contentTypeMismatch (msg : String)
  | readErr
  | decodeFailure (msg : String)

/-- Model of `http.StatusText` (the stdlib's code → standard-phrase table;
subset covering the common codes, empty string for the rest, as in Go). -/
def statusText (code : Nat) : String :=
  match code with
  | 200 => "OK"
  | 201 => "Created"
  | 204 => "No Content"
  | 301 => "Moved Permanently"
  | 302 => "Found"
  | 304 => "Not Modified"
  | 400 => "Bad Request"
  | 401 => "Unauthorized"
  | 403 => "Forbidden"
  | 404 => "Not Found"
  | 429 => "Too Many Requests"
  | 500 => "Internal Server Error"
  | 502 => "Bad Gateway"
  | 503 => "Service Unavailable"
  | _ => ""

/-- Model of `BadStatusError` (badstatus.go): carries the numeric code. -/
structure BadStatusError where
  statusCode : Nat
deriving DecidableEq

/-- Model of `BadStatusError.Error()`: `fmt.Sprintf("%d %s", code, http.StatusText(code))`. -/
def BadStatusError.errorMessage (e : BadStatusError) : String :=
  toString e.statusCode ++ " " ++ statusText e.statusCode

/-- Model of `DownloadOptions`. `Option` fields model Go nil-ability; the
cache handle carries the backend's state. `genError` takes the body reader
and the status code, as in the source. -/
structure DownloadOptions (T : Type) where
  ctx : Option Ctx
  client : Option Client
  cache : Option CacheState
  cacheKey : String
  cacheTTL : Nat
  genError : Option (Reader → Nat → Err T)
  method : String
  body : Option String
  bodyContentType : String
  header : Header
  acceptContentType : String
  ignoreStatusCode : Bool

/-- Model of `DefaultDownloadOptions`: background context, default client,
method "GET", everything else zero-valued. -/
def DefaultDownloadOptions {T : Type} : DownloadOptions T :=
  { ctx := some .background
    client := some .defaultClient
    cache := none
    cacheKey := ""
    cacheTTL := 0
    genError := none
    method := "GET"
    body := none
    bodyContentType := ""
    header := []
    acceptContentType := ""
    ignoreStatusCode := false }

/-- The error-factory installed by `WithErrorType[T]`: decode the body as
JSON into `T`; on any decode error (including a failing reader) fall back to
`BadStatus(code)`. `dec` is the JSON-decode collaborator for `T`. -/
def genErrorOf {T : Type} (dec : String → Option T) : Reader → Nat → Err T :=
  fun r code =>
    if r.fails then .badStatus code
    else
      match dec r.content with
      | some t => .structured t
      | none => .badStatus code

/-- Model of `WithHeader(key, value0, values...)`: `Set` the first value,
then `Add` each further value. (The source's nil-map initialisation is the
empty association list here.) -/
def WithHeader {T : Type} (key value0 : String) (values : List String)
    (o : DownloadOptions T) : DownloadOptions T :=
  { o with header := values.foldl (fun h v => headerAdd h key v) (headerSet o.header key value0) }

/-- The exposed configuration-mutator vocabulary (`DownloadOption` values
producible from the public API). `Option` arguments model nil inputs;
`withErrorType` carries the decode collaborator for the chosen type;
`withFakeUserAgent` carries the string drawn from the random user-agent
source. -/
inductive DLOption (T : Type) where
  | withContext (ctx : Option Ctx)
  | withClient (client : Option Client)
  | withCache (cache : Option CacheState) (key : String) (ttl : Nat)
  | withErrorType (dec : String → Option T)
  | withMethod (m : String)
  | withBody (body : Option String) (contentType : String)
  | withHeader (key value0 : String) (values : List String)
  | withFakeUserAgent (ua : String)
  | withAcceptContentType (ct : String)
  | withIgnoreStatusCode

/-- Apply one mutator, following the corresponding `With*` function bodies. -/
def applyOption {T : Type} (o : DLOption T) (d : DownloadOptions T) : DownloadOptions T :=
  match o with
  | .withContext ctx =>
    match ctx with
    | none => { d with ctx := some .background }
    | some c => { d with ctx := some c }
  | .withClient client =>
    match client with
    | none => { d with client := some .defaultClient }
    | some c => { d with client := some c }
  | .withCache cache key ttl => { d with cache := cache, cacheKey := key, cacheTTL := ttl }
  | .withErrorType dec => { d with genError := some (genErrorOf dec) }
  | .withMethod m => { d with method := m }
  | .withBody body ct => { d with body := body, bodyContentType := ct }
  | .withHeader key value0 values => WithHeader key value0 values d
  | .withFakeUserAgent ua => WithHeader "User-Agent" ua [] d
  | .withAcceptContentType ct => { d with acceptContentType := ct }
  | .withIgnoreStatusCode => { d with ignoreStatusCode := true }

/-- Option assembly: fold the mutators over a base configuration. -/
def applyOptions {T : Type} (base : DownloadOptions T) (os : List (DLOption T)) :
    DownloadOptions T :=
  os.foldl (fun d o => applyOption o d) base

/-! ## The response and the retrieval pipeline -/

/-- Model of the transport's `*http.Response`: status code, the raw
`Content-Type` header value, the body content, and whether reading the body
to the end fails. -/
structure Resp where
  statusCode : Nat
  contentType : String
  body : String
  readFails : Bool

/-- Model of `matchContentType` (badstatus.go): exact equality of the
configured string against the parsed media type of the response's
`Content-Type` header. -/
def matchContentType (resp : Resp) (contentType : String) : Bool :=
  contentType == parseMediaType resp.contentType

/-- The stream a successful retrieval returns: either the original network
body (with its read-failure flag), or an in-memory `NopCloser` stream
(`strings.NewReader` / `bytes.NewReader`). -/
inductive BodyStream where
  | original (content : String) (readFails : Bool)
  | memory (content : String)

/-- Result of one `Download` call: the returned stream or error, the cache
state after the call, whether the transport was invoked, and whether the
network body was closed inside `Download`. -/
structure DLResult (T : Type) where
  result : Except (Err T) BodyStream
  cacheAfter : Option CacheState
  networkUsed : Bool
  bodyClosed : Bool

/-- Lines 181-196 of badstatus.go: the accept-content-type check followed by
the cache write-through. On write-through the original body is read fully,
cached, and replaced by an in-memory stream; note the source never closes the
original body on this success path. -/
def acceptAndCache {T : Type} (opts : DownloadOptions T) (resp : Resp) : DLResult T :=
  if 0 < opts.acceptContentType.length ∧ matchContentType resp opts.acceptContentType = false then
    { result := .error (.contentTypeMismatch ("bad content-type: " ++ resp.contentType))
      cacheAfter := opts.cache, networkUsed := true, bodyClosed := true }
  else
    match opts.cache with
    | some st =>
      if resp.readFails then
        { result := .error .readErr, cacheAfter := some st, networkUsed := true, bodyClosed := true }
      else
        { result := .ok (.memory resp.body)
          cacheAfter := some (cacheSet st opts.cacheKey resp.body opts.cacheTTL)
          networkUsed := true, bodyClosed := false }
    | none =>
      { result := .ok (.original resp.body resp.readFails)
        cacheAfter := none, networkUsed := true, bodyClosed := false }

/-- Lines 154-196 of badstatus.go: the network exchange and the response
classifier (status branch, then accept check and write-through). -/
def exchange {T : Type} (opts : DownloadOptions T) (net : Except String Resp) : DLResult T :=
  match net with
  | .error msg =>
    { result := .error (.transport msg), cacheAfter := opts.cache
      networkUsed := true, bodyClosed := false }
  | .ok resp =>
    if resp.statusCode < 200 ∨ 400 ≤ resp.statusCode then
      match opts.genError with
      | some gen =>
        if matchContentType resp "application/json" then
          { result := .error (gen ⟨resp.body, resp.readFails⟩ resp.statusCode)
            cacheAfter := opts.cache, networkUsed := true, bodyClosed := true }
        else if opts.ignoreStatusCode then acceptAndCache opts resp
        else
          { result := .error (.badStatus resp.statusCode)
            cacheAfter := opts.cache, networkUsed := true, bodyClosed := true }
      | none =>
        if opts.ignoreStatusCode then acceptAndCache opts resp
        else
          { result := .error (.badStatus resp.statusCode)
            cacheAfter := opts.cache, networkUsed := true, bodyClosed := true }
    else acceptAndCache opts resp

/-- The core of `Download` on an assembled configuration: the cache gate
(lines 147-152), falling through to the exchange on a miss. -/
def download {T : Type} (opts : DownloadOptions T) (net : Except String Resp) : DLResult T :=
  match opts.cache with
  | some st =>
    match cacheGet st opts.cacheKey with
    | some content =>
      { result := .ok (.memory content), cacheAfter := some st
        networkUsed := false, bodyClosed := false }
    | none => exchange opts net
  | none => exchange opts net

/-- Model of the `Download` entry point: assemble options from the default,
then run the pipeline. The URL and request construction carry no decision
logic relevant here and are elided (the transport is the `net` input). -/
def Download {T : Type} (os : List (DLOption T)) (net : Except String Resp) : DLResult T :=
  download (applyOptions DefaultDownloadOptions os) net

/-- Reading a returned stream to the end: the original body can fail, an
in-memory stream cannot. -/
def readStream : BodyStream → Except String String
  | .original c fails => if fails then .error "read error" else .ok c
  | .memory c => .ok c

/-- Model of `DownloadJSON[T]`: `Download` with `WithAcceptContentType("application/json")`
appended to the caller's options, then JSON-decode the body via the decode
collaborator `dec` (a read error during decoding surfaces as the decoder's
error, like `json.Decoder.Decode` on a failing reader). -/
def DownloadJSON {T U : Type} (dec : String → Except String U)
    (os : List (DLOption T)) (net : Except String Resp) : Except (Err T) U :=
  match (Download (os ++ [DLOption.withAcceptContentType "application/json"]) net).result with
  | .error e => .error e
  | .ok s =>
    match readStream s with
    | .error msg => .error (.decodeFailure msg)
    | .ok content =>
      match dec content with
      | .error msg => .error (.decodeFailure msg)
      | .ok u => .ok u

/-! ## Helper lemmas -/

/-- The cache gate falls through to the network: either no cache is
configured, or the lookup under the configured key misses. -/
def CacheMiss {T : Type} (opts : DownloadOptions T) : Prop :=
  ∀ st, opts.cache = some st → cacheGet st opts.cacheKey = none

theorem download_eq_exchange {T : Type} (opts : DownloadOptions T)
    (net : Except String Resp) (hm : CacheMiss opts) :
    download opts net = exchange opts net := by
  cases hc : opts.cache with
  | none => simp [download, hc]
  | some st => simp [download, hc, hm st hc]

theorem acceptAndCache_pass {T : Type} (opts : DownloadOptions T) (resp : Resp)
    (hc : opts.cache = none)
    (hct : opts.acceptContentType.length = 0 ∨
      matchContentType resp opts.acceptContentType = true) :
    acceptAndCache opts resp =
      { result := .ok (.original resp.body resp.readFails), cacheAfter := none
        networkUsed := true, bodyClosed := false } := by
  unfold acceptAndCache
  have hcond : ¬(0 < opts.acceptContentType.length ∧
      matchContentType resp opts.acceptContentType = false) := by
    rcases hct with h | h
    · exact fun hx => by omega
    · exact fun hx => by rw [h] at hx; exact absurd hx.2 (by simp)
  rw [if_neg hcond, hc]

theorem cacheGet_cacheSet (st : CacheState) (key v : String) (ttl : Nat) :
    cacheGet (cacheSet st key v ttl) key = some v := by
  induction st with
  | nil => simp [cacheGet, cacheSet]
  | cons e rest ih =>
    obtain ⟨k, v0, t0⟩ := e
    by_cases h : k = key <;> simp [cacheGet, cacheSet, h, ih]

/-! ## The claims -/

/-- C1: for every response whose status code is outside [200,400), with no
error-factory and the ignore flag unset (and the cache gate falling through),
`Download` returns no body and a `BadStatusError` whose code equals the
response's status code, and whose message renders the code followed by its
standard phrase. -/
theorem download_badStatus_classification {T : Type} (opts : DownloadOptions T)
    (resp : Resp) (hg : opts.genError = none) (hi : opts.ignoreStatusCode = false)
    (hm : CacheMiss opts) (hs : resp.statusCode < 200 ∨ 400 ≤ resp.statusCode) :
    (download opts (.ok resp)).result = .error (.badStatus resp.statusCode) ∧
    BadStatusError.errorMessage ⟨resp.statusCode⟩ =
      toString resp.statusCode ++ " " ++ statusText resp.statusCode := by
  refine ⟨?_, rfl⟩
  rw [download_eq_exchange _ _ hm]
  simp [exchange, hg, hi, hs]

/-- Witness for C1: a 500 response with the default configuration. -/
theorem download_badStatus_classification_witness :
    (download (DefaultDownloadOptions (T := Unit))
        (.ok { statusCode := 500, contentType := "text/plain", body := "oops",
               readFails := false })).result = .error (.badStatus 500) ∧
    BadStatusError.errorMessage ⟨500⟩ = "500 Internal Server Error" :=
  download_badStatus_classification DefaultDownloadOptions
    { statusCode := 500, contentType := "text/plain", body := "oops", readFails := false }
    rfl rfl (fun st h => by cases h) (by decide)

/-- C6: with the ignore-status-code flag set, no error-factory, no cache and
no violated accept-content-type constraint, `Download` returns the response
body with no error, for every status code. -/
theorem download_ignoreStatusCode_returns_body {T : Type} (opts : DownloadOptions T)
    (resp : Resp) (hg : opts.genError = none) (hi : opts.ignoreStatusCode = true)
    (hc : opts.cache = none)
    (hct : opts.acceptContentType.length = 0 ∨
      matchContentType resp opts.acceptContentType = true) :
    (download opts (.ok resp)).result = .ok (.original resp.body resp.readFails) := by
  have hm : CacheMiss opts := fun st h => by rw [hc] at h; cases h
  rw [download_eq_exchange _ _ hm]
  unfold exchange
  by_cases hs : resp.statusCode < 200 ∨ 400 ≤ resp.statusCode <;>
    simp [exchange, hg, hi, hs, acceptAndCache_pass opts resp hc hct]

/-- Witness for C6: a 500 response is returned as a body, no error. -/
theorem download_ignoreStatusCode_returns_body_witness :
    (download { DefaultDownloadOptions (T := Unit) with ignoreStatusCode := true }
        (.ok { statusCode := 500, contentType := "text/plain", body := "oops",
               readFails := false })).result = .ok (.original "oops" false) :=
  download_ignoreStatusCode_returns_body
    { DefaultDownloadOptions (T := Unit) with ignoreStatusCode := true }
    { statusCode := 500, contentType := "text/plain", body := "oops", readFails := false }
    rfl rfl rfl (Or.inl rfl)

theorem acceptAndCache_cache {T : Type} (opts : DownloadOptions T) (resp : Resp)
    (st : CacheState) (hc : opts.cache = some st)
    (hct : opts.acceptContentType.length = 0 ∨
      matchContentType resp opts.acceptContentType = true)
    (hr : resp.readFails = false) :
    acceptAndCache opts resp =
      { result := .ok (.memory resp.body)
        cacheAfter := some (cacheSet st opts.cacheKey resp.body opts.cacheTTL)
        networkUsed := true, bodyClosed := false } := by
  unfold acceptAndCache
  have hcond : ¬(0 < opts.acceptContentType.length ∧
      matchContentType resp opts.acceptContentType = false) := by
    rcases hct with h | h
    · exact fun hx => by omega
    · exact fun hx => by rw [h] at hx; exact absurd hx.2 (by simp)
  rw [if_neg hcond]
  simp [hc, hr]

theorem download_writeThrough {T : Type} (opts : DownloadOptions T) (st : CacheState)
    (resp : Resp) (hc : opts.cache = some st) (hmiss : cacheGet st opts.cacheKey = none)
    (hs : 200 ≤ resp.statusCode ∧ resp.statusCode < 400)
    (hct : opts.acceptContentType.length = 0 ∨
      matchContentType resp opts.acceptContentType = true)
    (hr : resp.readFails = false) :
    download opts (.ok resp) =
      { result := .ok (.memory resp.body)
        cacheAfter := some (cacheSet st opts.cacheKey resp.body opts.cacheTTL)
        networkUsed := true, bodyClosed := false } := by
  have hm : CacheMiss opts := by
    intro st0 h0
    rw [hc] at h0
    cases h0
    exact hmiss
  have hgood : ¬(resp.statusCode < 200 ∨ 400 ≤ resp.statusCode) := by omega
  rw [download_eq_exchange _ _ hm]
  simp [exchange, hgood, acceptAndCache_cache opts resp st hc hct hr]

/-- A configuration with an empty cache under key "k" and TTL 5. -/
def cacheOptsK : DownloadOptions Unit :=
  { DefaultDownloadOptions with cache := some [], cacheKey := "k", cacheTTL := 5 }

/-- A plain 200 text response with body "hello". -/
def respHello : Resp :=
  { statusCode := 200, contentType := "text/plain", body := "hello", readFails := false }

/-- C2 (evidence of the divergence): on the success-with-caching path the
call succeeds, the transport was used, the body bytes are cached and an
in-memory stream is substituted — yet the original network body is never
closed inside `Download` (badstatus.go reads it with `io.ReadAll` and
replaces it without calling `Close`), contradicting the spec's resource
discipline for that path. -/
theorem download_cacheSuccess_leaves_body_unclosed :
    (download cacheOptsK (.ok respHello)).result = .ok (.memory "hello") ∧
    (download cacheOptsK (.ok respHello)).networkUsed = true ∧
    (download cacheOptsK (.ok respHello)).cacheAfter = some [("k", "hello", 5)] ∧
    (download cacheOptsK (.ok respHello)).bodyClosed = false := by
  refine ⟨rfl, rfl, rfl, rfl⟩

/-- C4: cache round-trip. With a cache configured and the first lookup
missing, a successful first call uses the network, returns the body as an
in-memory stream and writes the body's bytes to the cache under the
configured key and TTL; a second call against the resulting cache state
returns identical content with no network exchange and no classification of
whatever the transport would have answered (`net2` is arbitrary). -/
theorem download_cache_roundTrip {T : Type} (opts : DownloadOptions T) (st : CacheState)
    (resp : Resp) (net2 : Except String Resp)
    (hc : opts.cache = some st) (hmiss : cacheGet st opts.cacheKey = none)
    (hs : 200 ≤ resp.statusCode ∧ resp.statusCode < 400)
    (hct : opts.acceptContentType.length = 0 ∨
      matchContentType resp opts.acceptContentType = true)
    (hr : resp.readFails = false) :
    (download opts (.ok resp)).result = .ok (.memory resp.body) ∧
    (download opts (.ok resp)).networkUsed = true ∧
    (download opts (.ok resp)).cacheAfter =
      some (cacheSet st opts.cacheKey resp.body opts.cacheTTL) ∧
    (download { opts with cache := (download opts (.ok resp)).cacheAfter } net2).result =
      .ok (.memory resp.body) ∧
    (download { opts with cache := (download opts (.ok resp)).cacheAfter } net2).networkUsed
      = false ∧
    (download { opts with cache := (download opts (.ok resp)).cacheAfter } net2).cacheAfter
      = (download opts (.ok resp)).cacheAfter := by
  rw [download_writeThrough opts st resp hc hmiss hs hct hr]
  refine ⟨rfl, rfl, rfl, ?_, ?_, ?_⟩ <;>
    simp [download, cacheGet_cacheSet]

/-- A 503 response used as the arbitrary transport answer for the second
call of the round-trip witness: the cached hit ignores it entirely. -/
def respSecond : Resp :=
  { statusCode := 503, contentType := "application/weird", body := "other", readFails := true }

/-- Witness for C4: concrete round-trip under key "k"; the second call's
transport answer is a bad-status, bad-content-type response, which the
cache hit never classifies. -/
theorem download_cache_roundTrip_witness :
    (download cacheOptsK (.ok respHello)).result = .ok (.memory "hello") ∧
    (download cacheOptsK (.ok respHello)).networkUsed = true ∧
    (download cacheOptsK (.ok respHello)).cacheAfter =
      some (cacheSet [] "k" "hello" 5) ∧
    (download { cacheOptsK with
        cache := (download cacheOptsK (.ok respHello)).cacheAfter } (.ok respSecond)).result =
      .ok (.memory "hello") ∧
    (download { cacheOptsK with
        cache := (download cacheOptsK (.ok respHello)).cacheAfter } (.ok respSecond)).networkUsed
      = false ∧
    (download { cacheOptsK with
        cache := (download cacheOptsK (.ok respHello)).cacheAfter } (.ok respSecond)).cacheAfter
      = (download cacheOptsK (.ok respHello)).cacheAfter :=
  download_cache_roundTrip cacheOptsK [] respHello (.ok respSecond)
    rfl rfl (by decide) (Or.inl rfl) rfl

/-- C10: the cache gate is triggered solely by the handle being non-nil; the
configured key is passed verbatim even when empty, so an empty key still
performs lookups and write-throughs under the empty-string key. -/
theorem download_cache_emptyKey {T : Type} (opts : DownloadOptions T) (st : CacheState)
    (resp : Resp) (net : Except String Resp) (v : String)
    (hc : opts.cache = some st) (hk : opts.cacheKey = "")
    (hs : 200 ≤ resp.statusCode ∧ resp.statusCode < 400)
    (hct : opts.acceptContentType.length = 0 ∨
      matchContentType resp opts.acceptContentType = true)
    (hr : resp.readFails = false) :
    (cacheGet st "" = some v →
      (download opts net).result = .ok (.memory v) ∧
      (download opts net).networkUsed = false) ∧
    (cacheGet st "" = none →
      (download opts (.ok resp)).cacheAfter =
        some (cacheSet st "" resp.body opts.cacheTTL) ∧
      (download opts (.ok resp)).networkUsed = true) := by
  constructor
  · intro hhit
    rw [← hk] at hhit
    simp [download, hc, hhit]
  · intro hmiss
    rw [← hk] at hmiss
    have h4 := download_writeThrough opts st resp hc hmiss hs hct hr
    rw [h4, hk]
    exact ⟨rfl, rfl⟩

/-- Cache configured under the empty key, holding an entry for "". -/
def optsEmptyHit : DownloadOptions Unit :=
  { DefaultDownloadOptions with cache := some [("", "cached", 9)], cacheKey := "", cacheTTL := 7 }

/-- Cache configured under the empty key, initially empty. -/
def optsEmptyMiss : DownloadOptions Unit :=
  { DefaultDownloadOptions with cache := some [], cacheKey := "", cacheTTL := 7 }

/-- Witness for C10: with an empty key, a present empty-string entry is
served from the cache, and a miss writes the body under the empty key. -/
theorem download_cache_emptyKey_witness :
    ((download optsEmptyHit (.ok respHello)).result = .ok (.memory "cached") ∧
      (download optsEmptyHit (.ok respHello)).networkUsed = false) ∧
    ((download optsEmptyMiss (.ok respHello)).cacheAfter =
        some (cacheSet [] "" "hello" 7) ∧
      (download optsEmptyMiss (.ok respHello)).networkUsed = true) := by
  constructor
  · exact (download_cache_emptyKey optsEmptyHit [("", "cached", 9)] respHello
      (.ok respHello) "cached" rfl rfl (by decide) (Or.inl rfl) rfl).1 rfl
  · exact (download_cache_emptyKey optsEmptyMiss [] respHello
      (.ok respHello) "cached" rfl rfl (by decide) (Or.inl rfl) rfl).2 rfl

theorem getAssoc_setAssoc (h : Header) (k : String) (vs : List String) :
    getAssoc (setAssoc h k vs) k = some vs := by
  induction h with
  | nil => simp [setAssoc, getAssoc]
  | cons e rest ih =>
    obtain ⟨k0, vs0⟩ := e
    by_cases hk : k0 = k <;> simp [setAssoc, getAssoc, hk, ih]

/-- C5 (counterexample to the claim as stated): the public vocabulary has a
single header mutator, `WithHeader`, which always Sets its first value; so a
mutator setting "X" to "a" followed by a second mutator carrying "b" under
"X" yields exactly ["b"], not ["a","b"], and across multiple calls values
overwrite rather than append. -/
theorem withHeader_two_mutators_overwrite :
    getAssoc (WithHeader "X" "b" []
        (WithHeader "X" "a" [] (DefaultDownloadOptions (T := Unit)))).header "X" =
      some ["b"] ∧
    (["b"] : List String) ≠ ["a", "b"] :=
  ⟨rfl, by decide⟩

/-- C5 (amended): the Set-then-Add composition lives inside one `WithHeader`
call: the first value overwrites whatever was bound to the key and each
further value appends, so `WithHeader("X","a","b")` yields exactly ["a","b"];
a later `WithHeader` on the same key overwrites, so setting "a" then setting
"c" in two calls yields exactly ["c"]. -/
theorem withHeader_composition (d : DownloadOptions Unit) :
    getAssoc (WithHeader "X" "a" ["b"] d).header "X" = some ["a", "b"] ∧
    getAssoc (WithHeader "X" "c" [] (WithHeader "X" "a" [] d)).header "X" = some ["c"] := by
  have hck : canonicalMIMEHeaderKey "X" = "X" := by decide
  constructor
  · simp [WithHeader, headerAdd, headerSet, hck, getAssoc_setAssoc]
  · simp [WithHeader, headerSet, hck, getAssoc_setAssoc]

/-- Witness for C5 (amended): the composition facts at the default options. -/
theorem withHeader_composition_witness :
    getAssoc (WithHeader "X" "a" ["b"] (DefaultDownloadOptions (T := Unit))).header "X" =
      some ["a", "b"] ∧
    getAssoc (WithHeader "X" "c" []
        (WithHeader "X" "a" [] (DefaultDownloadOptions (T := Unit)))).header "X" =
      some ["c"] :=
  withHeader_composition DefaultDownloadOptions

theorem applyOption_preserves {T : Type} (o : DLOption T) (d : DownloadOptions T)
    (h1 : d.ctx ≠ none) (h2 : d.client ≠ none) :
    (applyOption o d).ctx ≠ none ∧ (applyOption o d).client ≠ none := by
  cases o with
  | withContext ctx =>
    cases ctx <;> exact ⟨by simp [applyOption], by simpa [applyOption] using h2⟩
  | withClient c =>
    cases c <;> exact ⟨by simpa [applyOption] using h1, by simp [applyOption]⟩
  | withCache cache key ttl =>
    exact ⟨by simpa [applyOption] using h1, by simpa [applyOption] using h2⟩
  | withErrorType dec =>
    exact ⟨by simpa [applyOption] using h1, by simpa [applyOption] using h2⟩
  | withMethod m =>
    exact ⟨by simpa [applyOption] using h1, by simpa [applyOption] using h2⟩
  | withBody body ct =>
    exact ⟨by simpa [applyOption] using h1, by simpa [applyOption] using h2⟩
  | withHeader k v vs =>
    exact ⟨by simpa [applyOption, WithHeader] using h1, by simpa [applyOption, WithHeader] using h2⟩
  | withFakeUserAgent ua =>
    exact ⟨by simpa [applyOption, WithHeader] using h1, by simpa [applyOption, WithHeader] using h2⟩
  | withAcceptContentType ct =>
    exact ⟨by simpa [applyOption] using h1, by simpa [applyOption] using h2⟩
  | withIgnoreStatusCode =>
    exact ⟨by simpa [applyOption] using h1, by simpa [applyOption] using h2⟩

theorem applyOptions_preserves {T : Type} (os : List (DLOption T)) :
    ∀ d : DownloadOptions T, d.ctx ≠ none → d.client ≠ none →
      (applyOptions d os).ctx ≠ none ∧ (applyOptions d os).client ≠ none := by
  induction os with
  | nil => exact fun d h1 h2 => ⟨h1, h2⟩
  | cons o rest ih =>
    intro d h1 h2
    obtain ⟨g1, g2⟩ := applyOption_preserves o d h1 h2
    exact ih (applyOption o d) g1 g2

/-- C9: every sequence of exposed mutators applied to the process-wide
default yields a configuration with a non-nil context and a non-nil client,
and the context/client mutators silently replace nil arguments with
`context.Background()` / `http.DefaultClient`. -/
theorem applyOptions_ctx_client_invariant {T : Type} (os : List (DLOption T)) :
    (applyOptions DefaultDownloadOptions os).ctx ≠ none ∧
    (applyOptions DefaultDownloadOptions os).client ≠ none ∧
    (∀ d : DownloadOptions T, (applyOption (.withContext none) d).ctx = some .background) ∧
    (∀ d : DownloadOptions T,
      (applyOption (.withClient none) d).client = some .defaultClient) := by
  obtain ⟨h1, h2⟩ :=
    applyOptions_preserves os DefaultDownloadOptions (by simp [DefaultDownloadOptions])
      (by simp [DefaultDownloadOptions])
  exact ⟨h1, h2, fun d => rfl, fun d => rfl⟩

/-- Witness for C9: a mutator list that passes nil for both the context and
the client still yields a configuration with both fields non-nil. -/
theorem applyOptions_ctx_client_invariant_witness :
    (applyOptions (DefaultDownloadOptions (T := Unit))
        [.withContext none, .withClient none]).ctx ≠ none ∧
    (applyOptions (DefaultDownloadOptions (T := Unit))
        [.withContext none, .withClient none]).client ≠ none :=
  ⟨(applyOptions_ctx_client_invariant [.withContext none, .withClient none]).1,
    (applyOptions_ctx_client_invariant [.withContext none, .withClient none]).2.1⟩

theorem takeWhile_append_semi (raw ps : List Char) :
    (raw ++ Char.ofNat 59 :: ps).takeWhile (fun c => c ≠ Char.ofNat 59) =
      raw.takeWhile (fun c => c ≠ Char.ofNat 59) := by
  induction raw with
  | nil => simp
  | cons c rest ih =>
    by_cases h : c = Char.ofNat 59
    · simp [List.takeWhile_cons, h]
    · simp [List.takeWhile_cons, h]
      simpa using ih

theorem parseMediaType_params_stripped (raw ps : String) :
    parseMediaType (raw ++ ";" ++ ps) = parseMediaType raw := by
  unfold parseMediaType
  have hdata : (raw ++ ";" ++ ps).data = raw.data ++ Char.ofNat 59 :: ps.data := by
    simp [String.data_append]
  rw [hdata, takeWhile_append_semi]

/-- C7: content-type matching is exact equality of the configured media type
against the media type parsed from the response's `Content-Type` header with
parameters stripped — appending parameters never changes a match, so
"application/json" matches "application/json; charset=utf-8" — and on a
genuine mismatch of a required accept content type the call fails with an
error carrying the actual observed `Content-Type` header string, closing the
body. -/
theorem matchContentType_strips_params {T : Type} (opts : DownloadOptions T)
    (resp : Resp) (raw ps ct : String) (code : Nat) (b : String) (f : Bool)
    (hm : CacheMiss opts)
    (hct : 0 < opts.acceptContentType.length)
    (hmm : matchContentType resp opts.acceptContentType = false)
    (hs : 200 ≤ resp.statusCode ∧ resp.statusCode < 400) :
    parseMediaType (raw ++ ";" ++ ps) = parseMediaType raw ∧
    matchContentType
        { statusCode := code, contentType := ct ++ ";" ++ ps, body := b, readFails := f }
        opts.acceptContentType =
      matchContentType
        { statusCode := code, contentType := ct, body := b, readFails := f }
        opts.acceptContentType ∧
    matchContentType
        { statusCode := code, contentType := "application/json; charset=utf-8",
          body := b, readFails := f } "application/json" = true ∧
    (download opts (.ok resp)).result =
      .error (.contentTypeMismatch ("bad content-type: " ++ resp.contentType)) ∧
    (download opts (.ok resp)).bodyClosed = true := by
  have hgood : ¬(resp.statusCode < 200 ∨ 400 ≤ resp.statusCode) := by omega
  have hfail : download opts (.ok resp) =
      { result := .error (.contentTypeMismatch ("bad content-type: " ++ resp.contentType))
        cacheAfter := opts.cache, networkUsed := true, bodyClosed := true } := by
    rw [download_eq_exchange _ _ hm]
    simp [exchange, hgood, acceptAndCache, hct, hmm]
  refine ⟨parseMediaType_params_stripped raw ps, ?_, rfl, ?_, ?_⟩
  · simp [matchContentType, parseMediaType_params_stripped]
  · rw [hfail]
  · rw [hfail]

/-- A required-JSON configuration with no other options. -/
def optsRequireJSON : DownloadOptions Unit :=
  { DefaultDownloadOptions with acceptContentType := "application/json" }

/-- A 200 text/plain response. -/
def respPlain : Resp :=
  { statusCode := 200, contentType := "text/plain", body := "hi", readFails := false }

/-- Witness for C7: requiring "application/json" against an actual
"text/plain" response fails with the observed header in the message and the
body closed, while parameters alone never break a match. -/
theorem matchContentType_strips_params_witness :
    parseMediaType ("text/html" ++ ";" ++ " q=1") = parseMediaType "text/html" ∧
    matchContentType
        { statusCode := 200, contentType := "application/json" ++ ";" ++ " charset=utf-8",
          body := "x", readFails := false } optsRequireJSON.acceptContentType =
      matchContentType
        { statusCode := 200, contentType := "application/json",
          body := "x", readFails := false } optsRequireJSON.acceptContentType ∧
    matchContentType
        { statusCode := 200, contentType := "application/json; charset=utf-8",
          body := "x", readFails := false } "application/json" = true ∧
    (download optsRequireJSON (.ok respPlain)).result =
      .error (.contentTypeMismatch ("bad content-type: " ++ respPlain.contentType)) ∧
    (download optsRequireJSON (.ok respPlain)).bodyClosed = true :=
  matchContentType_strips_params optsRequireJSON respPlain "text/html" " q=1"
    "application/json" 200 "x" false (fun st h => by cases h) (by decide) (by decide)
    (by decide)

/-- C3: the factory installed by `WithErrorType` returns the JSON-decoded
value of the structured type as the failure when decoding succeeds, falls
back to `BadStatus(code)` when decoding fails (including when reading the
body fails), and never returns a decode error; `Download` hands it the body
and status code of a bad-status JSON response. -/
theorem withErrorType_factory_spec {T : Type} (dec : String → Option T)
    (d : DownloadOptions T) (r : Reader) (code : Nat) :
    (applyOption (.withErrorType dec) d).genError = some (genErrorOf dec) ∧
    (∀ t, r.fails = false → dec r.content = some t →
      genErrorOf dec r code = .structured t) ∧
    (r.fails = false → dec r.content = none → genErrorOf dec r code = .badStatus code) ∧
    (r.fails = true → genErrorOf dec r code = .badStatus code) ∧
    (∀ msg, genErrorOf dec r code ≠ .decodeFailure msg) ∧
    (∀ opts (resp : Resp), opts.genError = some (genErrorOf dec) → CacheMiss opts →
      (resp.statusCode < 200 ∨ 400 ≤ resp.statusCode) →
      matchContentType resp "application/json" = true →
      (download opts (.ok resp)).result =
        .error (genErrorOf dec ⟨resp.body, resp.readFails⟩ resp.statusCode)) := by
  refine ⟨rfl, ?_, ?_, ?_, ?_, ?_⟩
  · intro t hf hd
    simp [genErrorOf, hf, hd]
  · intro hf hd
    simp [genErrorOf, hf, hd]
  · intro hf
    simp [genErrorOf, hf]
  · intro msg
    unfold genErrorOf
    by_cases hf : r.fails
    · simp [hf]
    · simp [hf]
      cases hd : dec r.content <;> simp
  · intro opts resp hg hm hs hjson
    rw [download_eq_exchange _ _ hm]
    simp [exchange, hg, hs, hjson]

/-- The decode collaborator for the witness's structured type `Nat`:
succeeds exactly on one JSON body. -/
def decCode : String → Option Nat :=
  fun s => if s = "\x7b\"code\":1\x7d" then some 1 else none

/-- Witness for C3: a decodable bad-status JSON body yields the structured
value as the failure; an undecodable one yields `BadStatus(500)`. -/
theorem withErrorType_factory_spec_witness :
    genErrorOf decCode ⟨"\x7b\"code\":1\x7d", false⟩ 500 = .structured 1 ∧
    genErrorOf decCode ⟨"not json", false⟩ 500 = .badStatus 500 := by
  constructor
  · exact (withErrorType_factory_spec decCode DefaultDownloadOptions
      ⟨"\x7b\"code\":1\x7d", false⟩ 500).2.1 1 rfl rfl
  · exact (withErrorType_factory_spec decCode DefaultDownloadOptions
      ⟨"not json", false⟩ 500).2.2.1 rfl rfl

/-- Reading a returned body to the end and JSON-decoding it into a fresh
value: the spec's "full-read followed by decode" step. Read errors and
decode errors both surface as the decode step's error. -/
def decodeFullBody {T U : Type} (dec : String → Except String U)
    (body : BodyStream) : Except (Err T) U :=
  match readStream body with
  | .error msg => .error (.decodeFailure msg)
  | .ok content =>
    match dec content with
    | .error msg => .error (.decodeFailure msg)
    | .ok u => .ok u

/-- The spec's description of the JSON convenience entry point, assembled
from its words (spec-side definition for the refinement claim): `retrieve`
with an implicitly appended require-"application/json" mutator after the
caller's mutators; on retrieval failure return that error, otherwise
full-read and JSON-decode the body. -/
def retrieveJSONSpec {T U : Type} (dec : String → Except String U)
    (os : List (DLOption T)) (net : Except String Resp) : Except (Err T) U :=
  let retrieved := Download (os ++ [DLOption.withAcceptContentType "application/json"]) net
  match retrieved.result with
  | .error e => .error e
  | .ok body => decodeFullBody dec body

/-- C8: `DownloadJSON` is equivalent to `Download` with a require-JSON
mutator appended after the caller's mutators, followed by reading and
JSON-decoding the body: retrieval errors pass through unchanged, a decode
failure of a successfully retrieved body yields that decode error, and
otherwise the decoded value is returned. -/
theorem downloadJSON_refines_spec {T U : Type} (dec : String → Except String U)
    (os : List (DLOption T)) (net : Except String Resp) :
    DownloadJSON dec os net = retrieveJSONSpec dec os net ∧
    (∀ e, (Download (os ++ [DLOption.withAcceptContentType "application/json"]) net).result
        = .error e → DownloadJSON dec os net = .error e) ∧
    (∀ s content,
      (Download (os ++ [DLOption.withAcceptContentType "application/json"]) net).result
        = .ok s →
      readStream s = .ok content →
      DownloadJSON dec os net =
        (match dec content with
          | .error msg => .error (.decodeFailure msg)
          | .ok u => .ok u)) := by
  refine ⟨rfl, ?_, ?_⟩
  · intro e he
    unfold DownloadJSON
    rw [he]
  · intro s content hs hr
    unfold DownloadJSON
    rw [hs]
    simp [hr]

/-- The decode collaborator for the witness: decodes the scenario's widget
body into `7`. -/
def decWidget : String → Except String Nat :=
  fun s => if s = "\x7b\"id\":7\x7d" then .ok 7 else .error "unexpected JSON"

/-- The scenario's 200 JSON response with body equivalent to id 7. -/
def respWidget : Resp :=
  { statusCode := 200, contentType := "application/json; charset=utf-8",
    body := "\x7b\"id\":7\x7d", readFails := false }

/-- The scenario's 500 JSON response. -/
def respMsgBad : Resp :=
  { statusCode := 500, contentType := "application/json",
    body := "\x7b\"msg\":\"bad\"\x7d", readFails := false }

/-- Witness for C8 (the spec's scenario): against a 200 response with the
widget body, `DownloadJSON` returns the decoded value and no error; against
a 500 response with no error-factory it returns the 500 status error. -/
theorem downloadJSON_refines_spec_witness :
    DownloadJSON (T := Unit) decWidget [] (.ok respWidget) = .ok 7 ∧
    DownloadJSON (T := Unit) decWidget [] (.ok respMsgBad) = .error (.badStatus 500) := by
  constructor
  · exact (downloadJSON_refines_spec decWidget [] (.ok respWidget)).2.2
      (.original "\x7b\"id\":7\x7d" false) "\x7b\"id\":7\x7d" rfl rfl
  · exact (downloadJSON_refines_spec decWidget [] (.ok respMsgBad)).2.1
      (.badStatus 500) rfl

end Dlutil
